import Mathlib

/-!
Verification development for the distress-scanner repository.

Numeric values are modelled as rationals (`ℚ`); Python `round(x, n)`
is modelled as rounding `x·10^n` to the nearest integer; nullable
values are `Option`; mutable parcel rows are explicit records and the
batched store updates are row transformers.
-/

namespace DistressScanner

/-- Python `round(x, n)` modelled over `ℚ`: scale, round to nearest
integer, unscale. -/
def roundTo (n : ℕ) (x : ℚ) : ℚ := (round (x * 10 ^ n) : ℤ) / 10 ^ n

/-- `clamp(x, lo, hi)` from `scripts/batch_conviction_score.py`:
`max(lo, min(x, hi))`. -/
def clamp (x lo hi : ℚ) : ℚ := max lo (min x hi)

/-! ## Conviction score (scripts/batch_conviction_score.py) -/

/-- `W_DS` constant from `batch_conviction_score.py`. -/
def W_DS : ℚ := 35 / 100

/-- `W_MC` constant from `batch_conviction_score.py`. -/
def W_MC : ℚ := 40 / 100

/-- `MC_CAP` constant from `batch_conviction_score.py`. -/
def MC_CAP : ℚ := 7

/-- `VAC_BONUS_MAX` constant from `batch_conviction_score.py`. -/
def VAC_BONUS_MAX : ℚ := 25 / 10

/-- Return value of `compute_conviction`:
`(conviction_score, base_score, vacancy_bonus, components_list)`. -/
structure ConvictionResult where
  score : Option ℚ
  base : Option ℚ
  vacBonus : ℚ
  components : List String
  deriving Repr, DecidableEq

/-- Shallow embedding of `compute_conviction` from
`scripts/batch_conviction_score.py` (lines 47-83).  `mc_count` is
`Option ℕ` (the SQL aggregate may be NULL); `flag_vacancy` and
`usps_error` are the Python truthiness of the corresponding row
fields. -/
def compute_conviction (ds_composite : Option ℚ) (mc_raw : ℚ)
    (mc_count : Option ℕ) (flag_vacancy : Bool) (vac_conf : Option ℚ)
    (usps_error : Bool) : ConvictionResult :=
  -- ds_component
  let ds_comp : Option ℚ := ds_composite.map (fun d => clamp (d / 10) 0 1)
  -- mc_component — NULL if no signals
  let mc_comp : Option ℚ :=
    match mc_count with
    | none => none
    | some 0 => none
    | some _ => some (clamp (mc_raw / MC_CAP) 0 1)
  -- vacancy_bonus — only if flag_vacancy AND no usps_error
  let vac_bonus : ℚ :=
    if flag_vacancy ∧ ¬usps_error then
      VAC_BONUS_MAX * clamp (vac_conf.getD (8 / 10)) 0 1
    else 0
  -- base weight sum (reweighted — skip missing components)
  let base_sum : ℚ :=
    (if ds_comp.isSome then W_DS else 0) + (if mc_comp.isSome then W_MC else 0)
  if base_sum = 0 then
    ⟨none, none, roundTo 2 vac_bonus, []⟩
  else
    let base := 10 * (W_DS * ds_comp.getD 0 + W_MC * mc_comp.getD 0) / base_sum
    let score := roundTo 2 (clamp (base + vac_bonus) 0 10)
    let comps :=
      (if ds_comp.isSome then ["DS"] else []) ++
      (if mc_comp.isSome then ["MC"] else []) ++
      (if vac_bonus > 0 then ["VAC"] else [])
    ⟨some score, some (roundTo 2 base), roundTo 2 vac_bonus, comps⟩

/-- C1 counterexample: for a parcel with no DS composite, no MC
signals, `flag_vacancy = true` and no USPS error, the claimed
equivalence `score = null ⇔ (DS missing ∧ MC missing ∧ no vacancy
bonus)` fails: the code returns `score = none` even though the
vacancy bonus applies, and in particular the score is not
`clamp(0 + 2.5·0.9, 0, 10) = 2.25`. -/
theorem C1_counterexample :
    ¬(((compute_conviction none 0 (some 0) true (some (9 / 10)) false).score = none)
        ↔ ((none : Option ℚ) = none ∧ (some 0 = none ∨ (0 : ℕ) = 0)
            ∧ ¬(true = true ∧ ¬false = true))) ∧
    (compute_conviction none 0 (some 0) true (some (9 / 10)) false).score ≠
      some (9 / 4) := by
  have h1 : (compute_conviction none 0 (some 0) true (some (9 / 10)) false).score
      = none := by
    simp [compute_conviction]
  constructor
  · intro h
    have h2 := h.mp h1
    exact h2.2.2 ⟨rfl, by simp⟩
  · rw [h1]
    simp

/-- C1 amended: `compute_conviction` returns a `null` conviction score
iff the DS component is missing (`ds_composite = null`) and the MC
component is missing (`mc_count` null or 0), regardless of any vacancy
bonus. -/
theorem C1_theorem (ds : Option ℚ) (mc_raw : ℚ) (mc_count : Option ℕ)
    (fv : Bool) (vc : Option ℚ) (ue : Bool) :
    (compute_conviction ds mc_raw mc_count fv vc ue).score = none ↔
      (ds = none ∧ (mc_count = none ∨ mc_count = some 0)) := by
  rcases ds with _ | d <;> rcases mc_count with _ | (_ | k) <;>
    simp [compute_conviction, W_DS, W_MC] <;> norm_num <;> simp

/-! ## USPS consumer circuit breaker (scripts/batch_usps_enrich.py,
`consumer_thread`, lines 262-317) -/

/-- Outcome of one `consumer_thread` loop iteration: either
`check_single_parcel` returned a result whose `usps_error` truthiness
is `err`, or it raised an exception (the `except` branch). -/
inductive ConsumerEvent where
  | result (err : Bool)
  | exn
  deriving Repr, DecidableEq

/-- Visible effects of one `consumer_thread` iteration: the updated
`consecutive_errors` counter, whether this iteration slept 300 s (the
`>= 10` branch), and whether it set `shutdown_event` (the `>= 20`
branch). -/
structure ConsumerStepResult where
  consecutiveErrors : ℕ
  pausedFiveMin : Bool
  shutdown : Bool
  deriving Repr, DecidableEq

/-- Shallow embedding of one iteration of the `consumer_thread` loop
body.  On a returned result, the counter is incremented (error) or
reset (success); then `if consecutive_errors >= 10` pauses 5 minutes
and resets the counter to 0; then `if consecutive_errors >= 20` sets
`shutdown_event`.  On an exception only the counter is incremented
(the two breaker checks live inside the `try` block and are
skipped). -/
def consumer_step (ce : ℕ) (ev : ConsumerEvent) : ConsumerStepResult :=
  match ev with
  | .exn => ⟨ce + 1, false, false⟩
  | .result err =>
    let ce1 := if err then ce + 1 else 0
    let paused := decide (ce1 ≥ 10)
    let ce2 := if ce1 ≥ 10 then 0 else ce1
    let abort := decide (ce2 ≥ 20)
    ⟨ce2, paused, abort⟩

/-- Run of `consumer_thread` over a sequence of iteration outcomes,
starting from `consecutive_errors = ce`; the loop breaks when
`shutdown_event` is set.  Returns the final counter and whether
shutdown was triggered by this consumer. -/
def consumer_run : List ConsumerEvent → ℕ → ℕ × Bool
  | [], ce => (ce, false)
  | ev :: rest, ce =>
    let s := consumer_step ce ev
    if s.shutdown then (s.consecutiveErrors, true)
    else consumer_run rest s.consecutiveErrors

/-- C2 (code bug): the `>= 20` abort is dead code.  The `>= 10` check
runs first and resets the counter to 0, so at the `>= 20` check the
counter is always `< 10`; `shutdown_event` is never set by the
breaker.  In particular, 20 consecutive erroring checks (and any run
whatsoever) never trigger shutdown, while the 10th consecutive error
does pause the consumer for 5 minutes. -/
theorem C2_theorem :
    (∀ (ce : ℕ) (ev : ConsumerEvent), (consumer_step ce ev).shutdown = false) ∧
    (∀ (evs : List ConsumerEvent) (ce : ℕ), (consumer_run evs ce).2 = false) ∧
    (consumer_run (List.replicate 20 (ConsumerEvent.result true)) 0).2 = false ∧
    (consumer_step 9 (ConsumerEvent.result true)).pausedFiveMin = true := by
  have hstep : ∀ (ce : ℕ) (ev : ConsumerEvent),
      (consumer_step ce ev).shutdown = false := by
    intro ce ev
    cases ev with
    | exn => rfl
    | result err =>
      simp only [consumer_step]
      by_cases h : (if err then ce + 1 else 0) ≥ 10 <;> simp [h] <;> omega
  have hrun : ∀ (evs : List ConsumerEvent) (ce : ℕ),
      (consumer_run evs ce).2 = false := by
    intro evs
    induction evs with
    | nil => intro ce; rfl
    | cons ev rest ih =>
      intro ce
      simp [consumer_run, hstep ce ev, ih]
  exact ⟨hstep, hrun, hrun _ _, by decide⟩

/-! ## NDVI least-squares slope (src/naip/baseline.py,
`compute_ndvi_slope`, lines 159-185) -/

/-- Shallow embedding of `compute_ndvi_slope`: least-squares slope
over `(year, ndvi)` points, `none` for fewer than 2 points, `0` when
the denominator vanishes, otherwise rounded to 6 decimals. -/
def compute_ndvi_slope (points : List (ℚ × ℚ)) : Option ℚ :=
  if points.length < 2 then none
  else
    let n : ℚ := points.length
    let sum_x := (points.map Prod.fst).sum
    let sum_y := (points.map Prod.snd).sum
    let sum_xy := (points.map fun p => p.1 * p.2).sum
    let sum_x2 := (points.map fun p => p.1 ^ 2).sum
    let denom := n * sum_x2 - sum_x ^ 2
    if denom = 0 then some 0
    else some (roundTo 6 ((n * sum_xy - sum_x * sum_y) / denom))

/-- The least-squares denominator `N·Σx² − (Σx)²` as written in the
spec. -/
def lsq_denom (points : List (ℚ × ℚ)) : ℚ :=
  (points.length : ℚ) * (points.map fun p => p.1 ^ 2).sum -
    ((points.map Prod.fst).sum) ^ 2

/-- The least-squares numerator `N·Σxy − Σx·Σy` as written in the
spec. -/
def lsq_num (points : List (ℚ × ℚ)) : ℚ :=
  (points.length : ℚ) * (points.map fun p => p.1 * p.2).sum -
    ((points.map Prod.fst).sum) * ((points.map Prod.snd).sum)

/-- C7: `compute_ndvi_slope` returns `none` for fewer than 2 points,
`0` when the least-squares denominator `N·Σx² − (Σx)²` is zero, and
otherwise the least-squares slope rounded to 6 decimals; over `ℚ` it
is total, so no NaN or infinity can be produced. -/
theorem C7_theorem (points : List (ℚ × ℚ)) :
    (points.length < 2 → compute_ndvi_slope points = none) ∧
    (2 ≤ points.length → lsq_denom points = 0 →
      compute_ndvi_slope points = some 0) ∧
    (2 ≤ points.length → lsq_denom points ≠ 0 →
      compute_ndvi_slope points =
        some (roundTo 6 (lsq_num points / lsq_denom points))) := by
  refine ⟨fun h => ?_, fun h hd => ?_, fun h hd => ?_⟩
  · simp [compute_ndvi_slope, h]
  · rw [compute_ndvi_slope, if_neg (by omega)]
    simp only [lsq_denom] at hd
    rw [if_pos hd]
  · rw [compute_ndvi_slope, if_neg (by omega)]
    simp only [lsq_denom] at hd
    rw [if_neg hd]
    rfl

/-- C7 witness: on the concrete points `[(0, 0), (2, 1)]` the slope is
`1/2` (denominator `2·4 − 4 = 4 ≠ 0`). -/
theorem C7_witness :
    compute_ndvi_slope [((0 : ℚ), (0 : ℚ)), (2, 1)] = some (1 / 2) := by
  have h := ( C7_theorem [((0 : ℚ), (0 : ℚ)), (2, 1)]).2.2 (by simp)
    (by norm_num [lsq_denom])
  rw [h]
  norm_num [lsq_num, lsq_denom, roundTo, round_eq]

/-! ## USPS result rows and the three-way batch update
(src/db.py `batch_update_usps_results`, lines 1038-1118, and
src/usps/vacancy.py `USPSVacancyChecker.check_address`,
lines 355-449) -/

/-- How a single USPS HTTP attempt ended, as distinguished by
`check_address`: a parsed response, a 429, a non-2xx status raised as
`HTTPError`, or any other exception (timeout, DNS failure, connection
reset, ...) carrying its Python message `str(e)`. -/
inductive HttpOutcome where
  | ok
  | status429
  | httpError (status : ℕ)
  | exn (msg : String)
  deriving Repr, DecidableEq

/-- The `error` field of the `VacancyResult` that `check_address`
returns for each HTTP outcome: `None` on success, `"rate_limited"` on
429, `"http_{status}"` on an `HTTPError`, and the exception string on
any other exception. -/
def check_address_error : HttpOutcome → Option String
  | .ok => none
  | .status429 => some "rate_limited"
  | .httpError status => some ("http_" ++ toString status)
  | .exn msg => some msg

/-- `_USPS_TRANSIENT_ERRORS` from src/db.py line 1039. -/
def USPS_TRANSIENT_ERRORS : List String :=
  ["rate_limited", "http_500", "http_502", "http_503", "http_504"]

/-- The three branches of `batch_update_usps_results`. -/
inductive UspsErrorClass where
  | success
  | transient
  | permanent
  deriving Repr, DecidableEq

/-- The classification loop of `batch_update_usps_results`:
`if not err` (Python falsiness: `None` or `""`) → success;
`elif err in _USPS_TRANSIENT_ERRORS` → transient; else permanent. -/
def classify_usps_error (err : Option String) : UspsErrorClass :=
  match err with
  | none => .success
  | some e =>
    if e = "" then .success
    else if e ∈ USPS_TRANSIENT_ERRORS then .transient
    else .permanent

/-- One result row handed to `batch_update_usps_results` (the
DB-ready dict built by `check_single_parcel`, internal `_` fields
stripped). -/
structure UspsResult where
  parcel_id : String
  county : String
  usps_vacant : Option Bool
  usps_dpv_confirmed : Option Bool
  usps_address : Option String
  usps_city : Option String
  usps_zip : Option String
  usps_zip4 : Option String
  usps_business : Option Bool
  usps_carrier_route : Option String
  usps_address_mismatch : Bool
  usps_error : Option String
  flag_vacancy : Bool
  vacancy_confidence : Option ℚ
  deriving Repr, DecidableEq

/-- The USPS columns of one `gis_parcels_core` row (timestamps are
abstract `ℕ` instants). -/
structure ParcelUspsRow where
  usps_vacant : Option Bool
  usps_dpv_confirmed : Option Bool
  usps_address : Option String
  usps_city : Option String
  usps_zip : Option String
  usps_zip4 : Option String
  usps_business : Option Bool
  usps_carrier_route : Option String
  usps_address_mismatch : Option Bool
  usps_check_date : Option ℕ
  usps_error : Option String
  flag_vacancy : Option Bool
  vacancy_confidence : Option ℚ
  deriving Repr, DecidableEq

/-- The success-branch UPDATE of `batch_update_usps_results`: all
payload columns, `usps_check_date = NOW()`, `usps_error = NULL`. -/
def usps_apply_success (now : ℕ) (r : UspsResult) (_p : ParcelUspsRow) :
    ParcelUspsRow where
  usps_vacant := r.usps_vacant
  usps_dpv_confirmed := r.usps_dpv_confirmed
  usps_address := r.usps_address
  usps_city := r.usps_city
  usps_zip := r.usps_zip
  usps_zip4 := r.usps_zip4
  usps_business := r.usps_business
  usps_carrier_route := r.usps_carrier_route
  usps_address_mismatch := some r.usps_address_mismatch
  usps_check_date := some now
  usps_error := none
  flag_vacancy := some r.flag_vacancy
  vacancy_confidence := r.vacancy_confidence

/-- The transient-branch UPDATE: only `usps_error`, `flag_vacancy =
FALSE`, `vacancy_confidence = NULL`; `usps_check_date` untouched. -/
def usps_apply_transient (r : UspsResult) (p : ParcelUspsRow) : ParcelUspsRow :=
  { p with usps_error := r.usps_error, flag_vacancy := some false,
           vacancy_confidence := none }

/-- The permanent-branch UPDATE: like transient but also
`usps_check_date = NOW()`. -/
def usps_apply_permanent (now : ℕ) (r : UspsResult) (p : ParcelUspsRow) :
    ParcelUspsRow :=
  { p with usps_error := r.usps_error, usps_check_date := some now,
           flag_vacancy := some false, vacancy_confidence := none }

/-- The parcel store, keyed by `(parcel_id, county)` as in every
`WHERE` clause of the batched updates. -/
def UspsStore : Type := String × String → ParcelUspsRow

/-- Apply one result row of a given class to the store. -/
def usps_apply_row (now : ℕ) (cls : UspsErrorClass) (store : UspsStore)
    (r : UspsResult) : UspsStore :=
  fun key =>
    if key = (r.parcel_id, r.county) then
      match cls with
      | .success => usps_apply_success now r (store key)
      | .transient => usps_apply_transient r (store key)
      | .permanent => usps_apply_permanent now r (store key)
    else store key

/-- Shallow embedding of `batch_update_usps_results`: split the rows
three ways on `usps_error`, then run the success UPDATEs, the
transient UPDATEs and the permanent UPDATEs.  Returns the updated
store and the `updated` row count. -/
def batch_update_usps_results (now : ℕ) (store : UspsStore)
    (results : List UspsResult) : UspsStore × ℕ :=
  let success_results :=
    results.filter (fun r => classify_usps_error r.usps_error = .success)
  let transient_results :=
    results.filter (fun r => classify_usps_error r.usps_error = .transient)
  let permanent_results :=
    results.filter (fun r => classify_usps_error r.usps_error = .permanent)
  let s1 := success_results.foldl (usps_apply_row now .success) store
  let s2 := transient_results.foldl (usps_apply_row now .transient) s1
  let s3 := permanent_results.foldl (usps_apply_row now .permanent) s2
  (s3, success_results.length + transient_results.length +
    permanent_results.length)

/-- C3 counterexample: a check that failed with a network timeout
carries `error = str(e)` (here `"Read timed out"`), which is not in
`_USPS_TRANSIENT_ERRORS`, so it is classified permanent and its
`usps_check_date` is set — the claim says it must be transient with
`usps_check_date` left unset. -/
theorem C3_counterexample :
    check_address_error (HttpOutcome.exn "Read timed out") =
      some "Read timed out" ∧
    classify_usps_error (some "Read timed out") = UspsErrorClass.permanent ∧
    classify_usps_error (some "Read timed out") ≠ UspsErrorClass.transient := by
  refine ⟨rfl, by decide, by decide⟩

/-- C3 amended: `batch_update_usps_results` splits each row on its
error tag: no (or empty) error → payload written, `usps_check_date`
set, `usps_error` cleared; error in the fixed transient set
`{rate_limited, http_500, http_502, http_503, http_504}` → error set
and `usps_check_date` untouched; any other error (including timeout
and DNS exception strings) → permanent: error and `usps_check_date`
both set. -/
theorem C3_theorem (now : ℕ) (r : UspsResult) (p : ParcelUspsRow) :
    (classify_usps_error r.usps_error = .transient ↔
      ∃ e, r.usps_error = some e ∧ e ∈ USPS_TRANSIENT_ERRORS) ∧
    ((r.usps_error = none ∨ r.usps_error = some "") →
      (usps_apply_success now r p).usps_check_date = some now ∧
      (usps_apply_success now r p).usps_error = none) ∧
    (classify_usps_error r.usps_error = .transient →
      (usps_apply_transient r p).usps_check_date = p.usps_check_date ∧
      (usps_apply_transient r p).usps_error = r.usps_error) ∧
    (classify_usps_error r.usps_error = .permanent →
      (usps_apply_permanent now r p).usps_check_date = some now ∧
      (usps_apply_permanent now r p).usps_error = r.usps_error) := by
  refine ⟨?_, fun _ => ⟨rfl, rfl⟩, fun _ => ⟨rfl, rfl⟩, fun _ => ⟨rfl, rfl⟩⟩
  constructor
  · intro h
    rcases he : r.usps_error with _ | e
    · rw [he] at h; simp [classify_usps_error] at h
    · refine ⟨e, rfl, ?_⟩
      rw [he] at h
      simp only [classify_usps_error] at h
      by_cases h0 : e = ""
      · simp [h0] at h
      · rw [if_neg h0] at h
        by_cases hm : e ∈ USPS_TRANSIENT_ERRORS
        · exact hm
        · rw [if_neg hm] at h; exact absurd h (by decide)
  · rintro ⟨e, he, hm⟩
    have hne : e ≠ "" := by
      intro h0
      rw [h0] at hm
      revert hm; decide
    simp [classify_usps_error, he, hne, hm]

/-- C3 witness: a `"rate_limited"` row is transient and a transient
update leaves `usps_check_date` at its prior value (here `none`). -/
theorem C3_witness :
    (∃ e, (some "rate_limited" : Option String) = some e ∧
      e ∈ USPS_TRANSIENT_ERRORS) ∧
    (usps_apply_transient
        { parcel_id := "P1", county := "Gaston", usps_vacant := none,
          usps_dpv_confirmed := none, usps_address := none, usps_city := none,
          usps_zip := none, usps_zip4 := none, usps_business := none,
          usps_carrier_route := none, usps_address_mismatch := false,
          usps_error := some "rate_limited", flag_vacancy := false,
          vacancy_confidence := none }
        { usps_vacant := none, usps_dpv_confirmed := none, usps_address := none,
          usps_city := none, usps_zip := none, usps_zip4 := none,
          usps_business := none, usps_carrier_route := none,
          usps_address_mismatch := none, usps_check_date := none,
          usps_error := none, flag_vacancy := none,
          vacancy_confidence := none }).usps_check_date = none := by
  have h := C3_theorem 0
    { parcel_id := "P1", county := "Gaston", usps_vacant := none,
      usps_dpv_confirmed := none, usps_address := none, usps_city := none,
      usps_zip := none, usps_zip4 := none, usps_business := none,
      usps_carrier_route := none, usps_address_mismatch := false,
      usps_error := some "rate_limited", flag_vacancy := false,
      vacancy_confidence := none }
    { usps_vacant := none, usps_dpv_confirmed := none, usps_address := none,
      usps_city := none, usps_zip := none, usps_zip4 := none,
      usps_business := none, usps_carrier_route := none,
      usps_address_mismatch := none, usps_check_date := none,
      usps_error := none, flag_vacancy := none, vacancy_confidence := none }
  refine ⟨h.1.mp (by decide), (h.2.2.1 (by decide)).1⟩

/-! ## scan_pass updates (src/db.py `batch_update_scan_results`,
lines 218-265, and `batch_update_sentinel_results`, lines 715-759) -/

/-- The columns of one `gis_parcels_core` row touched by the pass-1
and sentinel batched updates. -/
structure ParcelScanRow where
  ndvi_score : Option ℚ
  ndvi_date : Option String
  ndvi_category : Option String
  fema_zone : Option String
  fema_risk : Option String
  fema_sfha : Option Bool
  distress_score : Option ℚ
  distress_flags : Option String
  flag_veg : Option Bool
  flag_flood : Option Bool
  flag_structural : Option Bool
  flag_neglect : Option Bool
  veg_confidence : Option ℚ
  flood_confidence : Option ℚ
  scan_date : Option String
  scan_pass : Option ℚ
  sentinel_worthy : Option Bool
  sentinel_trend_direction : Option String
  sentinel_trend_slope : Option ℚ
  sentinel_latest_ndvi : Option ℚ
  sentinel_months_data : Option ℕ
  sentinel_mean_ndvi : Option ℚ
  sentinel_data_source : Option String
  sentinel_chart_url : Option String
  sentinel_scan_date : Option String
  deriving Repr, DecidableEq

/-- One result dict handed to `batch_update_scan_results`. -/
structure ScanResult where
  ndvi_score : Option ℚ
  ndvi_date : Option String
  ndvi_category : Option String
  fema_zone : Option String
  fema_risk : Option String
  fema_sfha : Option Bool
  distress_score : Option ℚ
  distress_flags : Option String
  flag_veg : Option Bool
  flag_flood : Option Bool
  flag_structural : Option Bool
  flag_neglect : Option Bool
  veg_confidence : Option ℚ
  flood_confidence : Option ℚ
  scan_date : Option String
  scan_pass : ℚ
  sentinel_worthy : Option Bool
  deriving Repr, DecidableEq

/-- The per-row UPDATE of `batch_update_scan_results`: every listed
column, including `scan_pass`, is assigned directly from the result
dict. -/
def scan_apply_row (r : ScanResult) (p : ParcelScanRow) : ParcelScanRow :=
  { p with
    ndvi_score := r.ndvi_score
    ndvi_date := r.ndvi_date
    ndvi_category := r.ndvi_category
    fema_zone := r.fema_zone
    fema_risk := r.fema_risk
    fema_sfha := r.fema_sfha
    distress_score := r.distress_score
    distress_flags := r.distress_flags
    flag_veg := r.flag_veg
    flag_flood := r.flag_flood
    flag_structural := r.flag_structural
    flag_neglect := r.flag_neglect
    veg_confidence := r.veg_confidence
    flood_confidence := r.flood_confidence
    scan_date := r.scan_date
    scan_pass := some r.scan_pass
    sentinel_worthy := r.sentinel_worthy }

/-- One result dict handed to `batch_update_sentinel_results`. -/
structure SentinelResult where
  sentinel_trend_direction : Option String
  sentinel_trend_slope : Option ℚ
  sentinel_latest_ndvi : Option ℚ
  sentinel_months_data : Option ℕ
  sentinel_mean_ndvi : Option ℚ
  sentinel_data_source : Option String
  sentinel_chart_url : Option String
  sentinel_scan_date : Option String
  distress_score : Option ℚ
  distress_flags : Option String
  flag_veg : Option Bool
  flag_flood : Option Bool
  flag_structural : Option Bool
  flag_neglect : Option Bool
  veg_confidence : Option ℚ
  flood_confidence : Option ℚ
  scan_pass : ℚ
  deriving Repr, DecidableEq

/-- The per-row UPDATE of `batch_update_sentinel_results`:
`scan_pass = GREATEST(COALESCE(scan_pass, 0), %(scan_pass)s)`. -/
def sentinel_apply_row (r : SentinelResult) (p : ParcelScanRow) :
    ParcelScanRow :=
  { p with
    sentinel_trend_direction := r.sentinel_trend_direction
    sentinel_trend_slope := r.sentinel_trend_slope
    sentinel_latest_ndvi := r.sentinel_latest_ndvi
    sentinel_months_data := r.sentinel_months_data
    sentinel_mean_ndvi := r.sentinel_mean_ndvi
    sentinel_data_source := r.sentinel_data_source
    sentinel_chart_url := r.sentinel_chart_url
    sentinel_scan_date := r.sentinel_scan_date
    distress_score := r.distress_score
    distress_flags := r.distress_flags
    flag_veg := r.flag_veg
    flag_flood := r.flag_flood
    flag_structural := r.flag_structural
    flag_neglect := r.flag_neglect
    veg_confidence := r.veg_confidence
    flood_confidence := r.flood_confidence
    scan_pass := some (max (p.scan_pass.getD 0) r.scan_pass) }

/-- An empty scan row (all columns NULL), used as a concrete base for
counterexamples and witnesses. -/
def emptyScanRow : ParcelScanRow where
  ndvi_score := none
  ndvi_date := none
  ndvi_category := none
  fema_zone := none
  fema_risk := none
  fema_sfha := none
  distress_score := none
  distress_flags := none
  flag_veg := none
  flag_flood := none
  flag_structural := none
  flag_neglect := none
  veg_confidence := none
  flood_confidence := none
  scan_date := none
  scan_pass := none
  sentinel_worthy := none
  sentinel_trend_direction := none
  sentinel_trend_slope := none
  sentinel_latest_ndvi := none
  sentinel_months_data := none
  sentinel_mean_ndvi := none
  sentinel_data_source := none
  sentinel_chart_url := none
  sentinel_scan_date := none

/-- A minimal pass-1 result carrying a given `scan_pass`. -/
def scanResultWithPass (q : ℚ) : ScanResult where
  ndvi_score := none
  ndvi_date := none
  ndvi_category := none
  fema_zone := none
  fema_risk := none
  fema_sfha := none
  distress_score := none
  distress_flags := none
  flag_veg := none
  flag_flood := none
  flag_structural := none
  flag_neglect := none
  veg_confidence := none
  flood_confidence := none
  scan_date := none
  scan_pass := q
  sentinel_worthy := none

/-- C4 counterexample: a parcel already at `scan_pass = 2` that is
re-processed by the pass-1 update with `scan_pass = 1` ends at
`scan_pass = 1`, not `max(2, 1) = 2`: `batch_update_scan_results`
assigns `scan_pass` directly and can lower it. -/
theorem C4_counterexample :
    (scan_apply_row (scanResultWithPass 1)
        { emptyScanRow with scan_pass := some 2 }).scan_pass = some 1 ∧
    some (1 : ℚ) ≠ some (max 2 1) := by
  constructor
  · rfl
  · simp only [ne_eq, Option.some.injEq]
    norm_num

/-- C4 amended: only the sentinel update has max semantics.
`batch_update_sentinel_results` writes
`scan_pass = GREATEST(COALESCE(scan_pass, 0), new)`, so it never
lowers a stored `scan_pass`; `batch_update_scan_results` assigns the
new value directly. -/
theorem C4_theorem (r : SentinelResult) (p : ParcelScanRow) (old : ℚ)
    (h : p.scan_pass = some old) :
    (sentinel_apply_row r p).scan_pass = some (max old r.scan_pass) ∧
    (∀ q, (sentinel_apply_row r p).scan_pass = some q → old ≤ q) ∧
    (∀ s : ScanResult, (scan_apply_row s p).scan_pass = some s.scan_pass) := by
  refine ⟨?_, ?_, fun s => rfl⟩
  · simp [sentinel_apply_row, h]
  · intro q hq
    simp only [sentinel_apply_row, h] at hq
    simp only [Option.getD_some, Option.some.injEq] at hq
    rw [← hq]
    exact le_max_left _ _

/-- C4 witness: a parcel at `scan_pass = 2` hit by a sentinel update
carrying `scan_pass = 1.75` stays at `2`. -/
theorem C4_witness :
    (sentinel_apply_row
        { sentinel_trend_direction := none, sentinel_trend_slope := none,
          sentinel_latest_ndvi := none, sentinel_months_data := none,
          sentinel_mean_ndvi := none, sentinel_data_source := none,
          sentinel_chart_url := none, sentinel_scan_date := none,
          distress_score := none, distress_flags := none, flag_veg := none,
          flag_flood := none, flag_structural := none, flag_neglect := none,
          veg_confidence := none, flood_confidence := none,
          scan_pass := 7 / 4 }
        { emptyScanRow with scan_pass := some 2 }).scan_pass = some 2 := by
  have h := ( C4_theorem
    { sentinel_trend_direction := none, sentinel_trend_slope := none,
      sentinel_latest_ndvi := none, sentinel_months_data := none,
      sentinel_mean_ndvi := none, sentinel_data_source := none,
      sentinel_chart_url := none, sentinel_scan_date := none,
      distress_score := none, distress_flags := none, flag_veg := none,
      flag_flood := none, flag_structural := none, flag_neglect := none,
      veg_confidence := none, flood_confidence := none, scan_pass := 7 / 4 }
    { emptyScanRow with scan_pass := some 2 } 2 rfl).1
  rw [h]
  norm_num

/-! ## NDVI window read from a COG (src/naip/planetary.py,
`read_ndvi_from_cog`, lines 135-191) -/

/-- The raster abstraction behind `rasterio.open(cog_url)`: pixel
dimensions, band count, and the red (band 1) and NIR (band 4)
values at each pixel.  `row`/`col` below are the point's pixel
coordinates from `src.index(x, y)` and may fall outside the image. -/
structure Raster where
  height : ℤ
  width : ℤ
  bands : ℕ
  red : ℤ → ℤ → ℚ
  nir : ℤ → ℤ → ℚ

/-- The dict returned by `read_ndvi_from_cog`. -/
structure NdviReadResult where
  ndvi : Option ℚ
  red : Option ℚ
  nir : Option ℚ
  error : Option String
  deriving Repr, DecidableEq

/-- Integer interval `[a, b)` as a list. -/
def intRange (a b : ℤ) : List ℤ :=
  (List.range (b - a).toNat).map (fun i => a + i)

/-- The `(red, nir)` pairs of the pixels in the window
`[rs, re) × [cs, ce)` (row-major, as numpy iterates them). -/
def windowPixels (src : Raster) (rs re cs ce : ℤ) : List (ℚ × ℚ) :=
  (intRange rs re).flatMap
    (fun i => (intRange cs ce).map (fun j => (src.red i j, src.nir i j)))

/-- Arithmetic mean of a list (numpy `.mean()`); `0/0 = 0` on the
empty list, which the code never hits. -/
def mean (l : List ℚ) : ℚ := l.sum / l.length

/-- The clamped window bounds `(r_start, r_end, c_start, c_end)` of
`read_ndvi_from_cog`: `half = window_size // 2`, starts clamped to 0,
ends clamped to the image size. -/
def cogWindow (src : Raster) (row col : ℤ) (ws : ℕ) : ℤ × ℤ × ℤ × ℤ :=
  let half : ℤ := ((ws / 2 : ℕ) : ℤ)
  (max 0 (row - half), min src.height (row + half + 1),
   max 0 (col - half), min src.width (col + half + 1))

/-- The pixels of the clamped window. -/
def cogPixels (src : Raster) (row col : ℤ) (ws : ℕ) : List (ℚ × ℚ) :=
  let b := cogWindow src row col ws
  windowPixels src b.1 b.2.1 b.2.2.1 b.2.2.2

/-- The valid pixel set of `read_ndvi_from_cog`: pixels with
`denom = nir + red > 0`. -/
def cogValid (src : Raster) (row col : ℤ) (ws : ℕ) : List (ℚ × ℚ) :=
  (cogPixels src row col ws).filter (fun pr => pr.2 + pr.1 > 0)

/-- Shallow embedding of `read_ndvi_from_cog` (the function is total:
every branch, including the Python `except`, returns a result dict
rather than raising).  Empty clamped window → `pixel_out_of_bounds`;
fewer than 4 bands → `insufficient_bands`; no valid pixel → `ndvi =
0.0` with no error; otherwise the mean per-pixel NDVI over the valid
set, rounded to 4 decimals. -/
def read_ndvi_from_cog (src : Raster) (row col : ℤ) (ws : ℕ) :
    NdviReadResult :=
  let b := cogWindow src row col ws
  if b.1 ≥ b.2.1 ∨ b.2.2.1 ≥ b.2.2.2 then
    ⟨none, none, none, some "pixel_out_of_bounds"⟩
  else if src.bands < 4 then
    ⟨none, none, none, some ("insufficient_bands: " ++ toString src.bands)⟩
  else
    let pixels := cogPixels src row col ws
    let valid := cogValid src row col ws
    let redMean := mean (pixels.map Prod.fst)
    let nirMean := mean (pixels.map Prod.snd)
    if valid = [] then ⟨some 0, some redMean, some nirMean, none⟩
    else
      ⟨some (roundTo 4
          (mean (valid.map (fun pr => (pr.2 - pr.1) / (pr.2 + pr.1))))),
       some redMean, some nirMean, none⟩

/-- A raster whose red and NIR planes are identically zero (a pure
nodata window), 4 bands, 3×3 pixels. -/
def srcZero : Raster := ⟨3, 3, 4, fun _ _ => 0, fun _ _ => 0⟩

/-- C5 counterexample: a 3×3 window entirely inside `srcZero` contains
only nodata pixels (no pixel with `NIR + R > 0`), yet
`read_ndvi_from_cog` returns `ndvi = 0.0` with no error — not
`ndvi = null` with a permanent error tag as the claim states. -/
theorem C5_counterexample :
    (read_ndvi_from_cog srcZero 1 1 3).ndvi = some 0 ∧
    (read_ndvi_from_cog srcZero 1 1 3).error = none := by
  have hv : cogValid srcZero 1 1 3 = [] := by
    apply List.filter_eq_nil_iff.mpr
    intro pr hpr
    simp only [cogPixels, windowPixels, srcZero, List.mem_flatMap,
      List.mem_map] at hpr
    obtain ⟨i, _, j, _, rfl⟩ := hpr
    norm_num
  rw [read_ndvi_from_cog]
  have hb : ¬((cogWindow srcZero 1 1 3).1 ≥ (cogWindow srcZero 1 1 3).2.1 ∨
      (cogWindow srcZero 1 1 3).2.2.1 ≥ (cogWindow srcZero 1 1 3).2.2.2) := by
    rw [cogWindow]; norm_num [srcZero]
  have h4 : ¬srcZero.bands < 4 := by norm_num [srcZero]
  simp only [hb, if_false, h4, hv, if_true]
  exact ⟨trivial, trivial⟩

/-- C5 amended: `read_ndvi_from_cog` is total and its result is fully
characterized by the window: an empty clamped window →
`(ndvi = null, error = pixel_out_of_bounds)`; else fewer than 4 bands
→ `(ndvi = null, error = insufficient_bands)`; else if no pixel has
`NIR + R > 0` → `ndvi = 0.0` with no error (not null); else the mean
per-pixel NDVI over exactly the valid set, rounded to 4 decimals, with
no error. -/
theorem C5_theorem (src : Raster) (row col : ℤ) (ws : ℕ) :
    (((cogWindow src row col ws).1 ≥ (cogWindow src row col ws).2.1 ∨
        (cogWindow src row col ws).2.2.1 ≥ (cogWindow src row col ws).2.2.2) →
      read_ndvi_from_cog src row col ws =
        ⟨none, none, none, some "pixel_out_of_bounds"⟩) ∧
    (¬((cogWindow src row col ws).1 ≥ (cogWindow src row col ws).2.1 ∨
        (cogWindow src row col ws).2.2.1 ≥ (cogWindow src row col ws).2.2.2) →
      src.bands < 4 →
      read_ndvi_from_cog src row col ws =
        ⟨none, none, none, some ("insufficient_bands: " ++ toString src.bands)⟩) ∧
    (¬((cogWindow src row col ws).1 ≥ (cogWindow src row col ws).2.1 ∨
        (cogWindow src row col ws).2.2.1 ≥ (cogWindow src row col ws).2.2.2) →
      ¬src.bands < 4 → cogValid src row col ws = [] →
      read_ndvi_from_cog src row col ws =
        ⟨some 0, some (mean ((cogPixels src row col ws).map Prod.fst)),
         some (mean ((cogPixels src row col ws).map Prod.snd)), none⟩) ∧
    (¬((cogWindow src row col ws).1 ≥ (cogWindow src row col ws).2.1 ∨
        (cogWindow src row col ws).2.2.1 ≥ (cogWindow src row col ws).2.2.2) →
      ¬src.bands < 4 → cogValid src row col ws ≠ [] →
      read_ndvi_from_cog src row col ws =
        ⟨some (roundTo 4 (mean ((cogValid src row col ws).map
            (fun pr => (pr.2 - pr.1) / (pr.2 + pr.1))))),
         some (mean ((cogPixels src row col ws).map Prod.fst)),
         some (mean ((cogPixels src row col ws).map Prod.snd)), none⟩) := by
  refine ⟨fun hb => ?_, fun hb h4 => ?_, fun hb h4 hv => ?_, fun hb h4 hv => ?_⟩
  · rw [read_ndvi_from_cog]
    simp only [hb, if_true]
  · rw [read_ndvi_from_cog]
    simp only [hb, if_false, h4, if_true]
  · rw [read_ndvi_from_cog]
    simp only [hb, if_false, h4, hv, if_true]
  · rw [read_ndvi_from_cog]
    simp only [hb, if_false, h4, hv, if_true]

/-- C5 witness: a window centred far outside `srcZero` is clamped
empty and reports `pixel_out_of_bounds` with a null NDVI. -/
theorem C5_witness :
    read_ndvi_from_cog srcZero 10 10 3 =
      ⟨none, none, none, some "pixel_out_of_bounds"⟩ := by
  exact ( C5_theorem srcZero 10 10 3).1 (by rw [cogWindow]; norm_num [srcZero])

/-! ## Vegetation overgrowth evaluator (src/analysis/flags.py,
`evaluate_vegetation_overgrowth`, lines 36-123) -/

/-- `NDVI_OVERGROWTH_MODERATE` from flags.py. -/
def NDVI_OVERGROWTH_MODERATE : ℚ := 50 / 100

/-- `NDVI_OVERGROWTH_STRONG` from flags.py. -/
def NDVI_OVERGROWTH_STRONG : ℚ := 65 / 100

/-- `NDVI_OVERGROWTH_CHANGE` from flags.py. -/
def NDVI_OVERGROWTH_CHANGE : ℚ := 15 / 100

/-- The fields of the NAIP baseline dict that
`evaluate_vegetation_overgrowth` reads; `errors` is the truthiness of
`naip.get("errors")` (a non-empty error list). -/
structure NaipData where
  errors : Bool
  current_ndvi : Option ℚ
  mean_historical_ndvi : Option ℚ
  deriving Repr, DecidableEq

/-- The fields of the Sentinel trend dict that
`evaluate_vegetation_overgrowth` reads. -/
structure SentinelData where
  errors : Bool
  trend_slope : Option ℚ
  trend_direction : Option String
  latest_ndvi : Option ℚ
  deriving Repr, DecidableEq

/-- The flag dict returned by `evaluate_vegetation_overgrowth`,
with the evidence entries that feed back into the combination logic
(`tier`, `note`, `source`, `agreement`) modelled as fields. -/
structure OvergrowthResult where
  flag : Bool
  confidence : ℚ
  tier : Option String
  note : Option String
  source : Option String
  agreement : Option String
  deriving Repr, DecidableEq

/-- The NAIP block of `evaluate_vegetation_overgrowth` (lines 60-88):
returns `(naip_flag, naip_conf, evidence tier, evidence note)`.
Strong tier (`current > 0.65`): with history and `current > mean +
0.15` → conf `min(Δ/0.3, 1)`; without history → conf `0.6` and note
`no_historical_baseline`.  Moderate tier (`0.50 < current ≤ 0.65`):
only with historical confirmation, conf `min(Δ/0.3, 0.8)`. -/
def overgrowth_naip (naip : Option NaipData) :
    Bool × ℚ × Option String × Option String :=
  match naip with
  | none => (false, 0, none, none)
  | some nd =>
    if nd.errors then (false, 0, none, none)
    else
      match nd.current_ndvi with
      | none => (false, 0, none, none)
      | some current =>
        if current > NDVI_OVERGROWTH_STRONG then
          match nd.mean_historical_ndvi with
          | some hm =>
            if current > hm + NDVI_OVERGROWTH_CHANGE then
              (true, min ((current - hm) / (3 / 10)) 1, some "strong", none)
            else (false, 0, none, none)
          | none => (true, 6 / 10, some "strong", some "no_historical_baseline")
        else if current > NDVI_OVERGROWTH_MODERATE then
          match nd.mean_historical_ndvi with
          | some hm =>
            if current > hm + NDVI_OVERGROWTH_CHANGE then
              (true, min ((current - hm) / (3 / 10)) (8 / 10), some "moderate",
                none)
            else (false, 0, none, none)
          | none => (false, 0, none, none)
        else (false, 0, none, none)

/-- The Sentinel block of `evaluate_vegetation_overgrowth`
(lines 91-102): fires when the trend direction is `"increasing"`, the
slope is present, and the latest NDVI is truthy and `> 0.50`;
confidence `min(slope/0.02, 1)`. -/
def overgrowth_sentinel (sentinel : Option SentinelData) : Bool × ℚ :=
  match sentinel with
  | none => (false, 0)
  | some sd =>
    if sd.errors then (false, 0)
    else
      match sd.trend_slope, sd.latest_ndvi with
      | some slope, some latest =>
        if sd.trend_direction = some "increasing" ∧ ¬latest = 0 ∧
            latest > NDVI_OVERGROWTH_MODERATE then
          (true, min (slope / (2 / 100)) 1)
        else (false, 0)
      | _, _ => (false, 0)

/-- Shallow embedding of `evaluate_vegetation_overgrowth`: run the
NAIP and Sentinel blocks, then combine.  Both agreeing →
`min(max(conf_a, conf_b) + 0.2, 1)`; NAIP alone → `conf · 0.8`,
except the strong tier without historical baseline, which keeps its
conservative `0.6` undiscounted; Sentinel alone → `conf · 0.7`. -/
def evaluate_vegetation_overgrowth (naip : Option NaipData)
    (sentinel : Option SentinelData) : OvergrowthResult :=
  let nres := overgrowth_naip naip
  let sres := overgrowth_sentinel sentinel
  if nres.1 ∧ sres.1 then
    ⟨true, min (max nres.2.1 sres.2 + 2 / 10) 1, nres.2.2.1, nres.2.2.2,
      none, some "naip_and_sentinel"⟩
  else if nres.1 then
    if nres.2.2.1 = some "strong" ∧ nres.2.2.2 = some "no_historical_baseline"
    then ⟨true, nres.2.1, nres.2.2.1, nres.2.2.2, some "naip_only", none⟩
    else ⟨true, nres.2.1 * (8 / 10), nres.2.2.1, nres.2.2.2, some "naip_only",
      none⟩
  else if sres.1 then
    ⟨true, sres.2 * (7 / 10), none, none, some "sentinel_only", none⟩
  else ⟨false, 0, nres.2.2.1, nres.2.2.2, none, none⟩

/-- C6 counterexample: aerial alone, strong tier with the historical
mean missing (current NDVI `0.7 > 0.65`, no baseline): the evaluation
fires from the aerial source alone with aerial confidence `0.6`, and
the final confidence is `0.6` — not `0.6 · 0.8 = 0.48` as the claim
requires ("no discount" branch, flags.py lines 112-114). -/
theorem C6_counterexample :
    (evaluate_vegetation_overgrowth
        (some ⟨false, some (7 / 10), none⟩) none).source = some "naip_only" ∧
    (evaluate_vegetation_overgrowth
        (some ⟨false, some (7 / 10), none⟩) none).confidence = 6 / 10 ∧
    (6 / 10 : ℚ) ≠ (6 / 10) * (8 / 10) := by
  refine ⟨?_, ?_, by norm_num⟩ <;>
    norm_num [evaluate_vegetation_overgrowth, overgrowth_naip,
      overgrowth_sentinel, NDVI_OVERGROWTH_STRONG]

/-- C6 amended: when only the aerial source fires, the final
confidence is the aerial confidence multiplied by `0.8`, except in the
strong tier with the historical mean missing, where the aerial
confidence (`0.6`) is kept undiscounted. -/
theorem C6_theorem (naip : Option NaipData) (sentinel : Option SentinelData)
    (hn : (overgrowth_naip naip).1 = true)
    (hs : (overgrowth_sentinel sentinel).1 = false) :
    (evaluate_vegetation_overgrowth naip sentinel).flag = true ∧
    (evaluate_vegetation_overgrowth naip sentinel).source = some "naip_only" ∧
    (evaluate_vegetation_overgrowth naip sentinel).confidence =
      (if (overgrowth_naip naip).2.2.1 = some "strong" ∧
          (overgrowth_naip naip).2.2.2 = some "no_historical_baseline"
       then (overgrowth_naip naip).2.1
       else (overgrowth_naip naip).2.1 * (8 / 10)) := by
  rw [evaluate_vegetation_overgrowth]
  simp only [hn, hs]
  by_cases h : (overgrowth_naip naip).2.2.1 = some "strong" ∧
      (overgrowth_naip naip).2.2.2 = some "no_historical_baseline" <;>
    simp [h]

/-- C6 witness: aerial strong tier with history (current `0.7`, mean
`0.4`): aerial confidence `min(0.3/0.3, 1) = 1`, aerial-alone final
confidence `1 · 0.8 = 0.8`. -/
theorem C6_witness :
    (evaluate_vegetation_overgrowth
        (some ⟨false, some (7 / 10), some (4 / 10)⟩) none).confidence =
      8 / 10 := by
  have hn : (overgrowth_naip (some ⟨false, some (7 / 10), some (4 / 10)⟩)).1
      = true := by
    norm_num [overgrowth_naip, NDVI_OVERGROWTH_STRONG, NDVI_OVERGROWTH_CHANGE]
  have hs : (overgrowth_sentinel (none : Option SentinelData)).1 = false := rfl
  have h := ( C6_theorem (some ⟨false, some (7 / 10), some (4 / 10)⟩) none
    hn hs).2.2
  rw [h]
  norm_num [overgrowth_naip, NDVI_OVERGROWTH_STRONG, NDVI_OVERGROWTH_CHANGE]
  intro hcontra
  exact Option.noConfusion hcontra

/-! ## Flush buffers (scripts/batch_usps_enrich.py `flush_buffer`,
lines 320-363, and scripts/batch_historical_slope.py `flush_buffer`,
lines 127-164) -/

/-- One slope result dict built by `compute_slope_for_parcel`. -/
structure SlopeRow where
  parcel_id : String
  county : String
  ndvi_slope_5yr : Option ℚ
  ndvi_history_count : ℕ
  ndvi_history_years : Option String
  deriving Repr, DecidableEq

/-- Shallow embedding of the slope pass `flush_buffer`.  The shared
deque is drained atomically to `batch`; `None` entries are filtered
out; on DB success the batch is written and counted; on a DB failure
(`dbOk = false`) the drained rows are pushed back with
`extendleft` (reversing their order).  Returns the new buffer and the
flushed count. -/
def slope_flush_buffer (buffer : List (Option SlopeRow)) (dbOk dryRun : Bool) :
    List (Option SlopeRow) × ℕ :=
  if buffer = [] then (buffer, 0)
  else if dryRun then ([], buffer.length)
  else
    let valid := buffer.filterMap id
    if valid = [] then ([], 0)
    else if dbOk then ([], valid.length)
    else ((valid.reverse).map some, 0)

/-- One entry of the USPS results buffer: the DB-ready dict plus the
internal `_account` field (and `_result`) that are stripped before the
DB write and the journal append. -/
structure UspsWorkerResult where
  row : UspsResult
  account : ℕ
  deriving Repr, DecidableEq

/-- Shallow embedding of the USPS pass `flush_buffer`.  Drain the
deque, strip internal fields into `db_batch`; on success run
`batch_update_usps_results`; on a DB failure append `db_batch` to the
local JSONL journal (`_save_local_backup`) and push the original
drained entries back with `extendleft`.  Returns
`(new buffer, journal appends, store, flushed count)`. -/
def usps_flush_buffer (buffer : List UspsWorkerResult) (dbOk dryRun : Bool)
    (store : UspsStore) (now : ℕ) :
    List UspsWorkerResult × List UspsResult × UspsStore × ℕ :=
  if buffer = [] then (buffer, [], store, 0)
  else if dryRun then ([], [], store, buffer.length)
  else
    let db_batch := buffer.map (fun r => r.row)
    if dbOk then
      ([], [], (batch_update_usps_results now store db_batch).1,
        (batch_update_usps_results now store db_batch).2)
    else (buffer.reverse, db_batch, store, 0)

/-- The all-NULL `gis_parcels_core` USPS column set, a concrete base
row for witnesses. -/
def emptyUspsRow : ParcelUspsRow where
  usps_vacant := none
  usps_dpv_confirmed := none
  usps_address := none
  usps_city := none
  usps_zip := none
  usps_zip4 := none
  usps_business := none
  usps_carrier_route := none
  usps_address_mismatch := none
  usps_check_date := none
  usps_error := none
  flag_vacancy := none
  vacancy_confidence := none

/-- A store whose rows are all NULL. -/
def emptyUspsStore : UspsStore := fun _ => emptyUspsRow

/-- A concrete successful USPS result row. -/
def sampleUspsResult : UspsResult where
  parcel_id := "P1"
  county := "Gaston"
  usps_vacant := some true
  usps_dpv_confirmed := some true
  usps_address := some "123 MAIN ST"
  usps_city := some "GASTONIA"
  usps_zip := some "28052"
  usps_zip4 := none
  usps_business := some false
  usps_carrier_route := some "C001"
  usps_address_mismatch := false
  usps_error := none
  flag_vacancy := true
  vacancy_confidence := some (9 / 10)

/-- A concrete slope result row. -/
def sampleSlopeRow : SlopeRow where
  parcel_id := "P2"
  county := "Gaston"
  ndvi_slope_5yr := some 0
  ndvi_history_count := 2
  ndvi_history_years := some "2020,2022"

/-- C10: flush failure loses no collected result.  If the store update
fails, every drained USPS entry is back in the shared buffer and its
stripped row has been appended to the local journal; every drained
non-`None` slope row is back in the slope buffer.  On success the USPS
flush empties the buffer and writes the batch through
`batch_update_usps_results`. -/
theorem C10_theorem (ubuf : List UspsWorkerResult)
    (sbuf : List (Option SlopeRow)) (store : UspsStore) (now : ℕ) :
    (∀ r ∈ ubuf,
      r ∈ (usps_flush_buffer ubuf false false store now).1 ∧
      r.row ∈ (usps_flush_buffer ubuf false false store now).2.1) ∧
    (∀ r : SlopeRow, some r ∈ sbuf →
      some r ∈ (slope_flush_buffer sbuf false false).1) ∧
    (ubuf ≠ [] →
      (usps_flush_buffer ubuf true false store now).1 = [] ∧
      (usps_flush_buffer ubuf true false store now).2.2.1 =
        (batch_update_usps_results now store (ubuf.map (fun r => r.row))).1) := by
  refine ⟨fun r hr => ?_, fun r hr => ?_, fun hne => ?_⟩
  · have hne : ubuf ≠ [] := by rintro rfl; exact absurd hr (List.not_mem_nil r)
    refine ⟨?_, ?_⟩ <;> simp [usps_flush_buffer, hne, hr]
    exact ⟨r, hr, rfl⟩
  · have hne : sbuf ≠ [] := by
      rintro rfl; exact absurd hr (List.not_mem_nil _)
    have hv : r ∈ sbuf.filterMap id := by
      rw [List.mem_filterMap]
      exact ⟨some r, hr, rfl⟩
    have hvne : sbuf.filterMap id ≠ [] := by
      rintro h; rw [h] at hv; exact absurd hv (List.not_mem_nil r)
    simp [slope_flush_buffer, hne, hvne, hv]
    exact hr
  · refine ⟨?_, ?_⟩ <;> simp [usps_flush_buffer, hne]

/-- C10 witness: a concrete one-element USPS buffer and one-element
slope buffer survive a failed flush: the USPS entry is back in the
buffer (and journaled), the slope row is back in its buffer. -/
theorem C10_witness :
    (⟨sampleUspsResult, 1⟩ : UspsWorkerResult) ∈
      (usps_flush_buffer [⟨sampleUspsResult, 1⟩] false false
        emptyUspsStore 0).1 ∧
    sampleUspsResult ∈
      (usps_flush_buffer [⟨sampleUspsResult, 1⟩] false false
        emptyUspsStore 0).2.1 ∧
    some sampleSlopeRow ∈
      (slope_flush_buffer [some sampleSlopeRow] false false).1 := by
  have h := C10_theorem [⟨sampleUspsResult, 1⟩] [some sampleSlopeRow]
    emptyUspsStore 0
  have h1 := h.1 ⟨sampleUspsResult, 1⟩ (List.mem_singleton.mpr rfl)
  exact ⟨h1.1, h1.2, h.2.1 sampleSlopeRow (List.mem_singleton.mpr rfl)⟩

/-! ## USPS journal and replay (scripts/batch_usps_enrich.py
`_save_local_backup` lines 67-77 and `replay_backup` lines 80-104) -/

/-- A JSON scalar as stored in one journal line (the USPS result rows
are flat dicts of scalars; datetimes would be serialized to ISO
strings, but no row field holds one). -/
inductive JValue where
  | jnull
  | jstr (s : String)
  | jbool (b : Bool)
  | jnum (q : ℚ)
  deriving Repr, DecidableEq

/-- JSON encoding of a nullable string field. -/
def jOptStr : Option String → JValue
  | none => .jnull
  | some s => .jstr s

/-- JSON encoding of a nullable boolean field. -/
def jOptBool : Option Bool → JValue
  | none => .jnull
  | some b => .jbool b

/-- JSON encoding of a nullable numeric field. -/
def jOptNum : Option ℚ → JValue
  | none => .jnull
  | some q => .jnum q

/-- Decode a JSON scalar as a string. -/
def asStr : JValue → Option String
  | .jstr s => some s
  | _ => none

/-- Decode a JSON scalar as a boolean. -/
def asBool : JValue → Option Bool
  | .jbool b => some b
  | _ => none

/-- Decode a JSON scalar as a nullable string. -/
def asOptStr : JValue → Option (Option String)
  | .jnull => some none
  | .jstr s => some (some s)
  | _ => none

/-- Decode a JSON scalar as a nullable boolean. -/
def asOptBool : JValue → Option (Option Bool)
  | .jnull => some none
  | .jbool b => some (some b)
  | _ => none

/-- Decode a JSON scalar as a nullable number. -/
def asOptNum : JValue → Option (Option ℚ)
  | .jnull => some none
  | .jnum q => some (some q)
  | _ => none

/-- One journal line: the JSON object for one USPS result row, in dict
insertion order (`check_single_parcel`). -/
def encode_usps_row (r : UspsResult) : List (String × JValue) :=
  [("parcel_id", .jstr r.parcel_id),
   ("county", .jstr r.county),
   ("usps_vacant", jOptBool r.usps_vacant),
   ("usps_dpv_confirmed", jOptBool r.usps_dpv_confirmed),
   ("usps_address", jOptStr r.usps_address),
   ("usps_city", jOptStr r.usps_city),
   ("usps_zip", jOptStr r.usps_zip),
   ("usps_zip4", jOptStr r.usps_zip4),
   ("usps_business", jOptBool r.usps_business),
   ("usps_carrier_route", jOptStr r.usps_carrier_route),
   ("usps_address_mismatch", .jbool r.usps_address_mismatch),
   ("usps_error", jOptStr r.usps_error),
   ("flag_vacancy", .jbool r.flag_vacancy),
   ("vacancy_confidence", jOptNum r.vacancy_confidence)]

/-- Key lookup in a decoded JSON object (`record[key]`). -/
def jLookup (k : String) (l : List (String × JValue)) : Option JValue :=
  (l.find? (fun p => p.1 = k)).map Prod.snd

/-- Parse one journal line back into a USPS result row
(`json.loads` + the named parameters of the batched UPDATE). -/
def decode_usps_row (l : List (String × JValue)) : Option UspsResult := do
  let parcel_id ← (jLookup "parcel_id" l).bind asStr
  let county ← (jLookup "county" l).bind asStr
  let usps_vacant ← (jLookup "usps_vacant" l).bind asOptBool
  let usps_dpv_confirmed ← (jLookup "usps_dpv_confirmed" l).bind asOptBool
  let usps_address ← (jLookup "usps_address" l).bind asOptStr
  let usps_city ← (jLookup "usps_city" l).bind asOptStr
  let usps_zip ← (jLookup "usps_zip" l).bind asOptStr
  let usps_zip4 ← (jLookup "usps_zip4" l).bind asOptStr
  let usps_business ← (jLookup "usps_business" l).bind asOptBool
  let usps_carrier_route ← (jLookup "usps_carrier_route" l).bind asOptStr
  let usps_address_mismatch ← (jLookup "usps_address_mismatch" l).bind asBool
  let usps_error ← (jLookup "usps_error" l).bind asOptStr
  let flag_vacancy ← (jLookup "flag_vacancy" l).bind asBool
  let vacancy_confidence ← (jLookup "vacancy_confidence" l).bind asOptNum
  pure ⟨parcel_id, county, usps_vacant, usps_dpv_confirmed, usps_address,
    usps_city, usps_zip, usps_zip4, usps_business, usps_carrier_route,
    usps_address_mismatch, usps_error, flag_vacancy, vacancy_confidence⟩

/-- `_save_local_backup`: append one JSONL line per row of the failed
batch. -/
def save_local_backup (db_batch : List UspsResult) :
    List (List (String × JValue)) :=
  db_batch.map encode_usps_row

/-- `replay_backup`: parse every journal line and hand the records to
`batch_update_usps_results` on a fresh connection. -/
def replay_backup (now : ℕ) (store : UspsStore)
    (journal : List (List (String × JValue))) : UspsStore × ℕ :=
  batch_update_usps_results now store (journal.filterMap decode_usps_row)

/-- Decoding inverts encoding on nullable string fields. -/
theorem asOptStr_jOptStr (x : Option String) :
    asOptStr (jOptStr x) = some x := by cases x <;> rfl

/-- Decoding inverts encoding on nullable boolean fields. -/
theorem asOptBool_jOptBool (x : Option Bool) :
    asOptBool (jOptBool x) = some x := by cases x <;> rfl

/-- Decoding inverts encoding on nullable numeric fields. -/
theorem asOptNum_jOptNum (x : Option ℚ) :
    asOptNum (jOptNum x) = some x := by cases x <;> rfl

/-- The JSONL round trip is lossless on USPS result rows. -/
theorem decode_encode_usps_row (r : UspsResult) :
    decode_usps_row (encode_usps_row r) = some r := by
  simp [decode_usps_row, encode_usps_row, jLookup, asStr, asBool,
    asOptStr_jOptStr, asOptBool_jOptBool, asOptNum_jOptNum]

/-- C8: replaying the journal written during a store outage is
equivalent to the rows having been written in-line: for every batch
and every store state, `replay_backup` over
`_save_local_backup`'s journal equals a direct successful
`batch_update_usps_results` of that batch (same three-way error split
applied to the same rows, at the same write instant `now`). -/
theorem C8_theorem (now : ℕ) (store : UspsStore) (batch : List UspsResult) :
    replay_backup now store (save_local_backup batch) =
      batch_update_usps_results now store batch := by
  rw [replay_backup, save_local_backup, List.filterMap_map]
  have h : (decode_usps_row ∘ encode_usps_row) = some := by
    funext r
    exact decode_encode_usps_row r
  rw [h, List.filterMap_some]

/-! ## Situs address parser (src/usps/vacancy.py, `split_situs`,
lines 118-205) -/

/-- Python `str.upper()` (per-character ASCII uppercase). -/
def strUpper (s : String) : String := ⟨s.data.map Char.toUpper⟩

/-- Python `str.rstrip(",.")`: drop trailing commas and periods. -/
def strRstripPunct (s : String) : String :=
  ⟨(s.data.reverse.dropWhile (fun c => c = ',' || c = '.')).reverse⟩

/-- Python `str.isdigit()`: non-empty and all digits. -/
def strIsDigit (s : String) : Bool := !s.data.isEmpty && s.data.all Char.isDigit

/-- Python `str.strip()`: drop leading and trailing whitespace. -/
def pyStrip (s : String) : String :=
  ⟨((s.data.dropWhile Char.isWhitespace).reverse.dropWhile
      Char.isWhitespace).reverse⟩

/-- Helper for `str.split()`: walk the characters accumulating the
current word (reversed) and flushing it at whitespace. -/
def wordsAux : List Char → List Char → List String
  | [], cur => if cur = [] then [] else [⟨cur.reverse⟩]
  | c :: rest, cur =>
    if c.isWhitespace then
      (if cur = [] then wordsAux rest [] else ⟨cur.reverse⟩ :: wordsAux rest [])
    else wordsAux rest (c :: cur)

/-- Python `situs.strip().split()`: whitespace-separated tokens. -/
def pyWords (s : String) : List String := wordsAux s.data []

/-- Python `" ".join(tokens)`. -/
def joinTokens : List String → String
  | [] => ""
  | [t] => t
  | t :: rest => t ++ " " ++ joinTokens rest

/-- `_STATE_CODES` from src/usps/vacancy.py lines 108-115. -/
def STATE_CODES : List String :=
  ["AL", "AK", "AZ", "AR", "CA", "CO", "CT", "DE", "FL", "GA",
   "HI", "ID", "IL", "IN", "IA", "KS", "KY", "LA", "ME", "MD",
   "MA", "MI", "MN", "MS", "MO", "MT", "NE", "NV", "NH", "NJ",
   "NM", "NY", "NC", "ND", "OH", "OK", "OR", "PA", "RI", "SC",
   "SD", "TN", "TX", "UT", "VT", "VA", "WA", "WV", "WI", "WY",
   "DC"]

/-- `_AMBIGUOUS_STATE_SUFFIX` from `split_situs` line 152. -/
def AMBIGUOUS_STATE_SUFFIX : List String := ["CT", "IN", "AL", "ME", "OR"]

/-- `street_suffixes` from `split_situs` lines 155-163. -/
def STREET_SUFFIXES : List String :=
  ["ST", "AVE", "AV", "RD", "DR", "LN", "CT", "CIR", "BLVD",
   "WAY", "PL", "TRL", "LOOP", "HWY", "PKY", "PKWY", "COVE",
   "CV", "RUN", "PATH", "PASS", "PT", "PIKE", "SQ", "TER",
   "TERR", "ALY", "ROW", "WALK", "XING", "EXT", "BND", "CRES",
   "GRV", "HOLW", "IS", "KNL", "LK", "LNDG", "MALL", "MNR",
   "MDW", "MDWS", "ML", "MLS", "OVAL", "PARK", "PLZ", "RIDGE",
   "RDG", "SHR", "SPG", "SPUR", "TRCE", "VLY", "VW", "VISTA"]

/-- `skip_words` from `split_situs` line 181. -/
def SKIP_WORDS : List String :=
  ["UNINC", "UNINCORP", "UNINCORPORATED", "COUNTY", "TWP", "TOWNSHIP"]

/-- The 5-digit ZIP test of `split_situs` line 140:
`len(last) == 5 and last.isdigit()`. -/
def isZip5 (s : String) : Bool := s.data.length = 5 && s.data.all Char.isDigit

/-- The ZIP+4 test of `split_situs` line 143: length 10, dash at
index 5, digits on both sides. -/
def isZip9 (s : String) : Bool :=
  s.data.length = 10 && s.data.getD 5 ' ' = '-' &&
    (s.data.take 5).all Char.isDigit && (s.data.drop 6).all Char.isDigit

/-- The dict returned by `split_situs`. -/
structure SitusParts where
  street : String
  city : Option String
  state : Option String
  zip_code : Option String
  deriving Repr, DecidableEq

/-- The city walk of `split_situs` lines 187-194: starting just
before the state (input reversed), collect tokens into the city until
a street suffix (after upper + rstrip) is hit; the token at index 0
is never examined (`while idx > 0`). Returns
`(reversed street part, city tokens)`. -/
def walkCity : List String → List String × List String
  | [] => ([], [])
  | [t] => ([t], [])
  | t :: u :: rest =>
    if strRstripPunct (strUpper t) ∈ STREET_SUFFIXES then (t :: u :: rest, [])
    else ((walkCity (u :: rest)).1, (walkCity (u :: rest)).2 ++ [t])

/-- The disambiguation test of `split_situs` lines 171-173:
a truthy `fallback_state` whose uppercase differs from the found
state code. -/
def fallbackDisagrees (state : String) (fallback_state : Option String) : Bool :=
  match fallback_state with
  | some f => !(f = "") && !(state = strUpper f)
  | none => false

/-- Shallow embedding of `split_situs` from src/usps/vacancy.py
lines 118-205: strip a trailing ZIP, detect a trailing state code
(ambiguous codes defer to a disagreeing fallback), skip non-city
tokens, then walk left from the state collecting the city until a
street suffix. -/
def split_situs (situs : String) (fallback_state : Option String := none)
    (fallback_city : Option String := none) : SitusParts :=
  let parts := pyWords situs
  match parts.reverse with
  | [] => ⟨situs, fallback_city, fallback_state, none⟩
  | lastTok :: restRev =>
    let zp : Option String × List String :=
      if isZip5 lastTok then (some lastTok, restRev)
      else if isZip9 lastTok then (some ⟨lastTok.data.take 5⟩, restRev)
      else (none, lastTok :: restRev)
    match zp.2 with
    | [] => ⟨pyStrip situs, fallback_city, fallback_state, zp.1⟩
    | stTok :: preRev =>
      if 2 ≤ preRev.length ∧ strUpper stTok ∈ STATE_CODES then
        match preRev with
        | c2 :: midRev =>
          let state := strUpper stTok
          if state ∈ AMBIGUOUS_STATE_SUFFIX ∧
              fallbackDisagrees state fallback_state = true then
            ⟨joinTokens ((stTok :: c2 :: midRev).reverse), fallback_city,
             fallback_state, zp.1⟩
          else
            if strUpper c2 ∈ SKIP_WORDS ∨ strIsDigit (strUpper c2) then
              ⟨joinTokens midRev.reverse, fallback_city, some state, zp.1⟩
            else
              let wc := walkCity (c2 :: midRev)
              if ¬wc.2 = [] then
                ⟨joinTokens wc.1.reverse, some (joinTokens wc.2), some state,
                 zp.1⟩
              else
                ⟨joinTokens midRev.reverse, some c2, some state, zp.1⟩
        | [] =>
          ⟨joinTokens ((stTok :: preRev).reverse), fallback_city,
           fallback_state, zp.1⟩
      else
        ⟨joinTokens ((stTok :: preRev).reverse), fallback_city, fallback_state,
         zp.1⟩


-- tokenizer lemmas
/-- Non-whitespace characters only accumulate. -/
theorem wordsAux_no_ws (t : List Char) (h : ∀ c ∈ t, c.isWhitespace = false) :
    ∀ s cur, wordsAux (t ++ s) cur = wordsAux s (t.reverse ++ cur) := by
  induction t with
  | nil => intro s cur; simp
  | cons c t ih =>
    intro s cur
    have hc : c.isWhitespace = false := h c (List.mem_cons_self _ _)
    have ht : ∀ x ∈ t, x.isWhitespace = false :=
      fun x hx => h x (List.mem_cons_of_mem _ hx)
    simp only [List.cons_append, wordsAux, hc, Bool.false_eq_true, if_false]
    rw [show t.append s = t ++ s from rfl, ih ht s (c :: cur)]
    simp


/-- Tokenize-after-join round trip: splitting the space-join of
nonempty whitespace-free tokens returns the tokens. -/
theorem pyWords_joinTokens (ts : List String)
    (h : ∀ t ∈ ts, t.data ≠ [] ∧ ∀ c ∈ t.data, c.isWhitespace = false) :
    pyWords (joinTokens ts) = ts := by
  induction ts with
  | nil => rfl
  | cons t ts ih =>
    obtain ⟨hne, hnw⟩ := h t (List.mem_cons_self _ _)
    cases ts with
    | nil =>
      show wordsAux (joinTokens [t]).data [] = [t]
      have h1 : joinTokens [t] = t := rfl
      rw [h1]
      have h2 := wordsAux_no_ws t.data hnw [] []
      simp only [List.append_nil] at h2
      rw [h2, wordsAux]
      rw [if_neg (by simpa using hne)]
      simp
    | cons t2 ts2 =>
      have hrest : ∀ x ∈ t2 :: ts2, x.data ≠ [] ∧ ∀ c ∈ x.data,
          c.isWhitespace = false :=
        fun x hx => h x (List.mem_cons_of_mem _ hx)
      show wordsAux (joinTokens (t :: t2 :: ts2)).data [] = t :: t2 :: ts2
      have h1 : joinTokens (t :: t2 :: ts2) = t ++ " " ++ joinTokens (t2 :: ts2) := rfl
      rw [h1]
      have hdata : (t ++ " " ++ joinTokens (t2 :: ts2)).data =
          t.data ++ (' ' :: (joinTokens (t2 :: ts2)).data) := by
        rw [String.data_append, String.data_append]
        simp
      rw [hdata, wordsAux_no_ws t.data hnw _ []]
      simp only [List.append_nil]
      have hsp : ' '.isWhitespace = true := rfl
      rw [wordsAux, if_pos hsp, if_neg (by simpa using hne)]
      have := ih hrest
      rw [show wordsAux (joinTokens (t2 :: ts2)).data [] = t2 :: ts2 from this]
      simp

-- walk lemmas
/-- The walk stops at the street's last token: either it is a street
suffix, or it is the very first token of the address (never
examined). -/
theorem walkCity_streetRev (sfx : String) (streetInit : List String)
    (hsfx : strRstripPunct (strUpper sfx) ∈ STREET_SUFFIXES) :
    walkCity (sfx :: streetInit.reverse) = (sfx :: streetInit.reverse, []) := by
  cases h : streetInit.reverse with
  | nil => rfl
  | cons u us => rw [walkCity, if_pos hsfx]

/-- Suffix-free tokens on the city side are all collected into the
city. -/
theorem walkCity_append (a b : List String)
    (ha : ∀ t ∈ a, strRstripPunct (strUpper t) ∉ STREET_SUFFIXES)
    (hb : b ≠ []) :
    walkCity (a ++ b) = ((walkCity b).1, (walkCity b).2 ++ a.reverse) := by
  induction a with
  | nil => simp
  | cons t a ih =>
    have hta : ∀ x ∈ a, strRstripPunct (strUpper x) ∉ STREET_SUFFIXES :=
      fun x hx => ha x (List.mem_cons_of_mem _ hx)
    have ht : strRstripPunct (strUpper t) ∉ STREET_SUFFIXES :=
      ha t (List.mem_cons_self _ _)
    obtain ⟨u, us, huu⟩ : ∃ u us, a ++ b = u :: us := by
      cases h : a ++ b with
      | nil => exact absurd ((List.append_eq_nil).mp h).2 hb
      | cons u us => exact ⟨u, us, rfl⟩
    rw [List.cons_append, huu, walkCity, if_neg ht, ← huu, ih hta]
    simp

-- state code helpers
/-- Every state code has exactly two characters. -/
theorem state_code_len : ∀ s ∈ STATE_CODES, s.data.length = 2 := by decide

/-- Uppercasing preserves length. -/
theorem strUpper_data_length (s : String) :
    (strUpper s).data.length = s.data.length := by
  simp [strUpper]

/-- A state-code token is never mistaken for a ZIP. -/
theorem isZip5_of_state (st : String) (h : strUpper st ∈ STATE_CODES) :
    isZip5 st = false ∧ isZip9 st = false := by
  have h2 : st.data.length = 2 := by
    rw [← strUpper_data_length]
    exact state_code_len _ h
  constructor <;> simp [isZip5, isZip9, h2]

/-- The optional trailing ZIP of the canonical shape as a token
list. -/
def zipList : Option String → List String
  | none => []
  | some z => [z]

/-- The spec's canonical situs shape
`"<street tokens> <CITY TOKENS> <STATE> [ZIP]"`, space-joined. -/
def formatSitus (street city : List String) (st : String)
    (zip : Option String) : String :=
  joinTokens (street ++ city ++ [st] ++ zipList zip)

/-- Round trip on the canonical shape: when the street ends in a
suffix from the fixed vocabulary, no city token is a suffix or a
skip-word/number at the boundary, and the state code is unambiguous
or agrees with the fallback, `split_situs` recovers street, city
(exactly), state (uppercased) and ZIP. -/
theorem split_situs_roundtrip
    (streetInit cityToks : List String) (sfx c2 st : String)
    (zip fs fc : Option String)
    (Htok : ∀ t ∈ (streetInit ++ [sfx]) ++ (cityToks ++ [c2]) ++ [st] ++
        zipList zip, t.data ≠ [] ∧ ∀ ch ∈ t.data, ch.isWhitespace = false)
    (Hsfx : strRstripPunct (strUpper sfx) ∈ STREET_SUFFIXES)
    (Hcity : ∀ t ∈ cityToks ++ [c2],
      strRstripPunct (strUpper t) ∉ STREET_SUFFIXES)
    (Hc2 : ¬(strUpper c2 ∈ SKIP_WORDS ∨ strIsDigit (strUpper c2) = true))
    (Hst : strUpper st ∈ STATE_CODES)
    (Hamb : ¬(strUpper st ∈ AMBIGUOUS_STATE_SUFFIX ∧
      fallbackDisagrees (strUpper st) fs = true))
    (Hzip : ∀ z, zip = some z → isZip5 z = true) :
    split_situs (formatSitus (streetInit ++ [sfx]) (cityToks ++ [c2]) st zip)
        fs fc =
      ⟨joinTokens (streetInit ++ [sfx]), some (joinTokens (cityToks ++ [c2])),
       some (strUpper st), zip⟩ := by
  have hparts : pyWords (formatSitus (streetInit ++ [sfx]) (cityToks ++ [c2])
      st zip) = (streetInit ++ [sfx]) ++ (cityToks ++ [c2]) ++ [st] ++
      zipList zip := pyWords_joinTokens _ Htok
  have hzip5 := isZip5_of_state st Hst
  have hwalk : walkCity (c2 :: (cityToks.reverse ++ (sfx :: streetInit.reverse)))
      = (sfx :: streetInit.reverse, cityToks ++ [c2]) := by
    have h1 : c2 :: (cityToks.reverse ++ (sfx :: streetInit.reverse)) =
        (cityToks ++ [c2]).reverse ++ (sfx :: streetInit.reverse) := by simp
    rw [h1, walkCity_append _ _
      (fun t ht => Hcity t (List.mem_reverse.mp ht)) (by simp),
      walkCity_streetRev sfx streetInit Hsfx]
    simp
  rcases zip with _ | z
  · -- no zip
    rw [split_situs]
    rw [hparts]
    have hrev : ((streetInit ++ [sfx]) ++ (cityToks ++ [c2]) ++ [st] ++
        zipList none).reverse =
        st :: c2 :: (cityToks.reverse ++ (sfx :: streetInit.reverse)) := by
      simp [zipList]
    rw [hrev]
    simp only [hzip5.1, hzip5.2, Bool.false_eq_true, if_false]
    rw [if_pos ⟨by simp; omega, Hst⟩, if_neg Hamb, if_neg Hc2]
    simp only [hwalk]
    rw [if_pos (by simp)]
    simp
  · -- trailing zip
    rw [split_situs]
    rw [hparts]
    have hrev : ((streetInit ++ [sfx]) ++ (cityToks ++ [c2]) ++ [st] ++
        zipList (some z)).reverse =
        z :: st :: c2 :: (cityToks.reverse ++ (sfx :: streetInit.reverse)) := by
      simp [zipList]
    rw [hrev]
    simp only [Hzip z rfl, if_true]
    rw [if_pos ⟨by simp; omega, Hst⟩, if_neg Hamb, if_neg Hc2]
    simp only [hwalk]
    rw [if_pos (by simp)]
    simp

/-- Ambiguous trailing token with a disagreeing fallback: the suffix
interpretation wins and the whole remainder is returned as the
street, with city and state from the fallbacks. -/
theorem split_situs_ambiguous
    (rem : List String) (st : String) (zip fs fc : Option String)
    (Hrem : 2 ≤ rem.length)
    (Htok : ∀ t ∈ rem ++ [st] ++ zipList zip,
      t.data ≠ [] ∧ ∀ ch ∈ t.data, ch.isWhitespace = false)
    (Hst : strUpper st ∈ STATE_CODES)
    (Hamb : strUpper st ∈ AMBIGUOUS_STATE_SUFFIX ∧
      fallbackDisagrees (strUpper st) fs = true)
    (Hzip : ∀ z, zip = some z → isZip5 z = true) :
    split_situs (joinTokens (rem ++ [st] ++ zipList zip)) fs fc =
      ⟨joinTokens (rem ++ [st]), fc, fs, zip⟩ := by
  have hparts : pyWords (joinTokens (rem ++ [st] ++ zipList zip)) =
      rem ++ [st] ++ zipList zip := pyWords_joinTokens _ Htok
  have hzip5 := isZip5_of_state st Hst
  obtain ⟨c2, mid, hrem⟩ : ∃ c2 mid, rem.reverse = c2 :: mid := by
    cases h : rem.reverse with
    | nil =>
      exfalso
      rw [List.reverse_eq_nil_iff] at h
      subst h
      simp at Hrem
    | cons c2 mid => exact ⟨c2, mid, rfl⟩
  have hmidlen : 1 ≤ mid.length := by
    have := congrArg List.length hrem
    simp at this
    omega
  rcases zip with _ | z
  · rw [split_situs, hparts]
    have hrev : (rem ++ [st] ++ zipList none).reverse = st :: c2 :: mid := by
      simp [zipList, hrem]
    rw [hrev]
    simp only [hzip5.1, hzip5.2, Bool.false_eq_true, if_false]
    rw [if_pos ⟨by simpa using hmidlen, Hst⟩, if_pos Hamb]
    have hback : (st :: c2 :: mid).reverse = rem ++ [st] := by
      rw [show st :: c2 :: mid = [st] ++ (c2 :: mid) from rfl]
      simp [← hrem]
    rw [hback]
  · rw [split_situs, hparts]
    have hrev : (rem ++ [st] ++ zipList (some z)).reverse =
        z :: st :: c2 :: mid := by
      simp [zipList, hrem]
    rw [hrev]
    simp only [Hzip z rfl, if_true]
    rw [if_pos ⟨by simpa using hmidlen, Hst⟩, if_pos Hamb]
    have hback : (st :: c2 :: mid).reverse = rem ++ [st] := by
      rw [show st :: c2 :: mid = [st] ++ (c2 :: mid) from rfl]
      simp [← hrem]
    rw [hback]



/-- C9: round-trip law of the situs parser.  First conjunct: for every
address of the canonical shape `"<street tokens> <CITY TOKENS> <STATE>
[ZIP]"` whose street ends in a suffix from the fixed vocabulary, whose
city tokens are suffix-free with a boundary token that is not a
skip-word or number, and whose state code is unambiguous or agrees
with the fallback, `split_situs` recovers street, city, state (up to
uppercase) and ZIP.  Second conjunct: an ambiguous state-or-suffix
trailing token (`CT, IN, AL, ME, OR`) with a disagreeing fallback
makes the suffix interpretation win: the whole remainder is returned
as street. -/
theorem C9_theorem (streetInit cityToks rem : List String)
    (sfx c2 st : String) (zip fs fc : Option String) :
    ((∀ t ∈ (streetInit ++ [sfx]) ++ (cityToks ++ [c2]) ++ [st] ++
        zipList zip, t.data ≠ [] ∧ ∀ ch ∈ t.data, ch.isWhitespace = false) →
      strRstripPunct (strUpper sfx) ∈ STREET_SUFFIXES →
      (∀ t ∈ cityToks ++ [c2],
        strRstripPunct (strUpper t) ∉ STREET_SUFFIXES) →
      ¬(strUpper c2 ∈ SKIP_WORDS ∨ strIsDigit (strUpper c2) = true) →
      strUpper st ∈ STATE_CODES →
      ¬(strUpper st ∈ AMBIGUOUS_STATE_SUFFIX ∧
        fallbackDisagrees (strUpper st) fs = true) →
      (∀ z, zip = some z → isZip5 z = true) →
      split_situs (formatSitus (streetInit ++ [sfx]) (cityToks ++ [c2]) st zip)
          fs fc =
        ⟨joinTokens (streetInit ++ [sfx]),
         some (joinTokens (cityToks ++ [c2])), some (strUpper st), zip⟩) ∧
    (2 ≤ rem.length →
      (∀ t ∈ rem ++ [st] ++ zipList zip,
        t.data ≠ [] ∧ ∀ ch ∈ t.data, ch.isWhitespace = false) →
      strUpper st ∈ STATE_CODES →
      (strUpper st ∈ AMBIGUOUS_STATE_SUFFIX ∧
        fallbackDisagrees (strUpper st) fs = true) →
      (∀ z, zip = some z → isZip5 z = true) →
      split_situs (joinTokens (rem ++ [st] ++ zipList zip)) fs fc =
        ⟨joinTokens (rem ++ [st]), fc, fs, zip⟩) :=
  ⟨fun Htok Hsfx Hcity Hc2 Hst Hamb Hzip =>
    split_situs_roundtrip streetInit cityToks sfx c2 st zip fs fc
      Htok Hsfx Hcity Hc2 Hst Hamb Hzip,
   fun Hrem Htok Hst Hamb Hzip =>
    split_situs_ambiguous rem st zip fs fc Hrem Htok Hst Hamb Hzip⟩

/-- C9 witness: `"123 MAIN ST CHARLOTTE NC 28083"` parses back into
its components, and the ambiguous `"123 OAK CT"` with fallback state
`NC` is kept whole as street. -/
theorem C9_witness :
    split_situs "123 MAIN ST CHARLOTTE NC 28083" (some "NC") none =
      ⟨"123 MAIN ST", some "CHARLOTTE", some "NC", some "28083"⟩ ∧
    split_situs "123 OAK CT" (some "NC") none =
      ⟨"123 OAK CT", none, some "NC", none⟩ := by
  constructor
  · have h := ( C9_theorem ["123", "MAIN"] [] ["X"] "ST" "CHARLOTTE" "NC"
      (some "28083") (some "NC") none).1
      (by decide) (by decide) (by decide) (by decide) (by decide) (by decide)
      (by intro z hz
          obtain rfl : z = "28083" := (Option.some.inj hz).symm
          decide)
    rw [show "123 MAIN ST CHARLOTTE NC 28083" =
      formatSitus (["123", "MAIN"] ++ ["ST"]) ([] ++ ["CHARLOTTE"]) "NC"
        (some "28083") from rfl]
    rw [h]
    rfl
  · have h := ( C9_theorem [] [] ["123", "OAK"] "X" "Y" "CT" none (some "NC")
      none).2
      (by decide) (by decide) (by decide) (by decide)
      (by intro z hz; exact absurd hz (by simp))
    rw [show "123 OAK CT" =
      joinTokens (["123", "OAK"] ++ ["CT"] ++ zipList none) from rfl]
    rw [h]
    rfl

end DistressScanner
